import Mathlib

/-!
Shallow embedding of the skai example-generation orchestration scripts
(`generate_examples_main.py` and `create_cloud_labeling_task.py`).

Pure helper functions of the scripts are translated to Lean functions;
the `main` driver is translated to an explicit sequential function over a
configuration record and an environment record (the external collaborators:
file readers, the OpenStreetMap query, the cloud labeling service), producing
an effect trace and either a fatal error message or a result record.
Python floats that hold class indices or numeric label fields are modelled
as rationals; Python strings are modelled character-wise.
-/

namespace Skai

/-- Python-style slice `s[:n]`: the first `n` characters of a string. -/
def strTake (s : String) (n : Nat) : String := ⟨s.data.take n⟩

/-- Python `s.startswith(p)`: character-wise comparison against a leading pattern. -/
def strStartsWith (s p : String) : Bool := s.data.take p.data.length == p.data

/-- Python `c in s` for a single character. -/
def strContains (s : String) (c : Char) : Bool := s.data.contains c

/-- Python `s.partition(sep)` restricted to the single-character separator
used by the scripts: the text before the first occurrence of the separator
and the text after it. -/
def strPartitionChar (s : String) (c : Char) : String × String :=
  let pre := s.data.takeWhile (fun d => d != c)
  (⟨pre⟩, ⟨s.data.drop (pre.length + 1)⟩)

/-- Python truthiness of an optional string flag: `None` and the empty
string are falsy. -/
def optStrTruthy : Option String → Bool
  | none => false
  | some s => s != ""

/-- Python truthiness of an optional integer flag: `None` and `0` are falsy. -/
def optNatTruthy : Option Nat → Bool
  | none => false
  | some n => n != 0

/-- Result check for the error monad used throughout the embedding. -/
def exceptIsOk {α : Type} : Except String α → Bool
  | .ok _ => true
  | .error _ => false

deriving instance DecidableEq for Except

/-- A value of the label-bearing field of a row of the labels file: a string
class name, a numeric value (Python int or float), or anything else. -/
inductive LabelValue where
  | str (s : String)
  | num (q : ℚ)
  | other
  deriving DecidableEq, Repr

/-- One row of the labels file, already reprojected: the centroid of the
row's geometry and the value of the label property. -/
structure Row where
  x : ℚ
  y : ℚ
  label : LabelValue
  deriving DecidableEq, Repr

/-- A `(longitude, latitude)` building centroid. -/
abbrev Centroid := ℚ × ℚ

/-- A `(longitude, latitude, float label)` labeled coordinate. -/
abbrev Coord := ℚ × ℚ × ℚ

/-- A polygon bounding an area of interest, as its vertex sequence. -/
abbrev Polygon := List (ℚ × ℚ)

/-- Error message raised by `_read_labels_file` on a label of unrecognized
type (the Python message interpolates the offending type). -/
def unrecognizedLabelMsg : String := "Unrecognized label property type"

/-- The row loop of `_read_labels_file`: resolve each row's label field.
A string label becomes the rational value of its index in `classNames`
(first occurrence, case-sensitive exact match) and an unmatched string skips
the row; a numeric label passes through; any other label type aborts the
whole read with an error. -/
def processRows (classNames : List String) : List Row → Except String (List Coord)
  | [] => .ok []
  | r :: rest =>
    match r.label with
    | LabelValue.str s =>
      match classNames.findIdx? (fun c => c == s) with
      | some i =>
        match processRows classNames rest with
        | .error m => .error m
        | .ok cs => .ok ((r.x, r.y, (i : ℚ)) :: cs)
      | none => processRows classNames rest
    | LabelValue.num q =>
      match processRows classNames rest with
      | .error m => .error m
      | .ok cs => .ok ((r.x, r.y, q) :: cs)
    | LabelValue.other => .error unrecognizedLabelMsg

/-- The cap at the end of `_read_labels_file`: when the keep-count flag is
truthy (set and nonzero) the coordinate list is truncated to its first
`n` elements, otherwise kept whole. -/
def applyKeepCap (numKeep : Option Nat) (coordinates : List Coord) : List Coord :=
  if optNatTruthy numKeep then coordinates.take (numKeep.getD 0) else coordinates

/-- Embedding of `_read_labels_file`: process the rows of the file, then
apply the optional keep-count cap. -/
def readLabelsFile (classNames : List String) (numKeep : Option Nat)
    (rows : List Row) : Except String (List Coord) :=
  match processRows classNames rows with
  | .error m => .error m
  | .ok coordinates => .ok (applyKeepCap numKeep coordinates)

/-- Embedding of `_get_labeling_dataset_region` (identical in both scripts):
regions starting with "europe-" are hosted in "europe-west4", all others in
"us-central1". -/
def getLabelingDatasetRegion (projectRegion : String) : String :=
  if strStartsWith projectRegion "europe-" then "europe-west4"
  else "us-central1"

/-- Error message of `_get_gdal_env` on an entry without an equals sign. -/
def gdalEnvMsg : String :=
  "Each element in the gdal_env flag should have the form \"var=value\"."

/-- Python `dict` insertion `d[k] = v` on an insertion-ordered association
list: overwrite in place when the key exists, append otherwise. -/
def dictInsert (d : List (String × String)) (k v : String) :
    List (String × String) :=
  if d.any (fun p => p.1 == k) then
    d.map (fun p => if p.1 == k then (k, v) else p)
  else d ++ [(k, v)]

/-- The loop of `_get_gdal_env`, with the accumulated dictionary explicit. -/
def getGdalEnvAux (acc : List (String × String)) :
    List String → Except String (List (String × String))
  | [] => .ok acc
  | setting :: rest =>
    if strContains setting '=' then
      let p := strPartitionChar setting '='
      getGdalEnvAux (dictInsert acc p.1 p.2) rest
    else .error gdalEnvMsg

/-- Embedding of `_get_gdal_env`: parse the list of `var=value` flag entries
into a mapping, failing on any entry without an equals sign. -/
def getGdalEnv (settings : List String) :
    Except String (List (String × String)) :=
  getGdalEnvAux [] settings

/-- Error message of `main` when Dataflow is requested without a container
image on an unsupported Python version. -/
def dataflowImageMsg : String :=
  "dataflow_container_image must be specified when using Dataflow and your Python version != 3.7, 3.8, or 3.9."

/-- The container-image check at the top of `main`: under Dataflow with no
configured image, derive a default image from the first three characters of
the Python version, with known defaults only for 3.7, 3.8 and 3.9. -/
def resolveDataflowImage (useDataflow : Bool) (image : Option String)
    (pythonVersion : String) : Except String (Option String) :=
  let pyVersion := strTake pythonVersion 3
  if useDataflow = true ∧ image = none then
    if pyVersion = "3.7" then
      .ok (some "gcr.io/disaster-assessment/dataflow_3.7_image:latest")
    else if pyVersion = "3.8" then
      .ok (some "gcr.io/disaster-assessment/dataflow_3.8_image:latest")
    else if pyVersion = "3.9" then
      .ok (some "gcr.io/disaster-assessment/dataflow_3.9_image:latest")
    else .error dataflowImageMsg
  else .ok image

/-- How buildings are discovered: the three values of the `buildings_method`
enum flag. -/
inductive BuildingsMethod where
  | file
  | openStreetMap
  | none
  deriving DecidableEq, Repr

/-- The flag set read by `generate_examples_main.py`, as an explicit record.
Optional string flags default to Python `None`; `label_classes` defaults to
`["undamaged", "damaged"]`. -/
structure Config where
  cloudProject : Option String
  cloudRegion : String
  useDataflow : Bool
  datasetName : Option String
  aoiPath : String
  outputDir : String
  dataflowContainerImage : Option String
  gdalEnvFlag : List String
  buildingsMethod : BuildingsMethod
  buildingsFile : Option String
  overpassUrl : String
  labelsFile : Option String
  labelProperty : String
  labelClasses : List String
  numKeepLabeledExamples : Option Nat
  createCloudLabelingTask : Bool
  cloudLabelerPool : Option String
  cloudLabelerEmails : Option (List String)

/-- The external collaborators of the scripts: the runtime version and
timestamp, the geospatial file readers, the OpenStreetMap query and the
pool-creation service call, each as an abstract function. -/
structure Env where
  pythonVersion : String
  timestamp : String
  readAois : String → List Polygon
  readBuildingsFile : Option String → List Polygon → List Centroid
  osmCentroids : List Polygon → String → List Centroid
  labelRows : String → String → List Row
  createSpecialistPool : String → List String → List String → String

/-- An observable side effect of a run: reads of the AOI and labels files,
the call into the example-generation pipeline, and the two cloud labeling
service calls with their arguments. -/
inductive Effect where
  | readAoi (path : String)
  | readLabels (path : String)
  | pipelineCall
  | createPool (displayName : String) (managers members : List String)
  | createJob (region dataset pool importFileUri : String)
  deriving DecidableEq, Repr

/-- Error message of `get_building_centroids` when no branch matches the
buildings method. -/
def invalidBuildingsMethodMsg : String :=
  "Invalid value for \"buildings_method\" flag."

/-- Embedding of `get_building_centroids`: the `file` and `open_street_map`
branches delegate to their collaborators; any other value of the flag —
including `none` — falls through to the `ValueError`. -/
def getBuildingCentroids (c : Config) (env : Env) (regions : List Polygon) :
    Except String (List Centroid) :=
  match c.buildingsMethod with
  | BuildingsMethod.file => .ok (env.readBuildingsFile c.buildingsFile regions)
  | BuildingsMethod.openStreetMap => .ok (env.osmCentroids regions c.overpassUrl)
  | BuildingsMethod.none => .error invalidBuildingsMethodMsg

/-- Error message of `main` when neither a labels file nor a buildings
method is supplied. -/
def noWorkMsg : String :=
  "At least labels_file (for labeled examples extraction) or buildings_method != none (for unlabeled data) should be specified."

/-- Error message of `main` when a labeling task is requested without a
dataset name. -/
def datasetNameMsg : String :=
  "Dataset name must be specified with \"--dataset_name\""

/-- Error message of `main` when a new labeler pool is requested with no
annotator emails. -/
def labelerEmailMsg : String := "Must provide at least one labeler email."

/-- The labeler-pool block of `main`: an existing pool identifier is used
as-is with no service call; otherwise at least one email is required, the
first email (as the singleton slice `emails[:1]`) becomes the manager list,
the full list becomes the members, and the pool display name is the
timestamped dataset name with the `_pool` suffix. Returns the pool resource
name and the trace of service calls made. -/
def provisionPool (timestampedDataset : String) (poolFlag : Option String)
    (emailsFlag : Option (List String)) (env : Env) :
    Except String (String × List Effect) :=
  match poolFlag with
  | some pool => .ok (pool, [])
  | none =>
    match emailsFlag with
    | none => .error labelerEmailMsg
    | some [] => .error labelerEmailMsg
    | some (e :: rest) =>
      let poolDisplayName := timestampedDataset ++ "_pool"
      let emails := e :: rest
      .ok (env.createSpecialistPool poolDisplayName (emails.take 1) emails,
           [Effect.createPool poolDisplayName (emails.take 1) emails])

/-- The timestamped dataset name that `main` binds to the labeling job:
the configured dataset name, an underscore, and the second-resolution
generation timestamp. -/
def timestampedDataset (name ts : String) : String := name ++ "_" ++ ts

/-- The labeling-task block at the end of `main`: when the toggle is off it
does nothing; otherwise it requires a dataset name, builds the timestamped
dataset name, provisions the labeler pool, and creates the labeling job in
the routed region with the import manifest under the output directory. -/
def labelingTaskStage (c : Config) (env : Env) : Except String (List Effect) :=
  if c.createCloudLabelingTask = true then
    if optStrTruthy c.datasetName = false then .error datasetNameMsg
    else
      let td := timestampedDataset (c.datasetName.getD "") env.timestamp
      match provisionPool td c.cloudLabelerPool
          c.cloudLabelerEmails env with
      | .error m => .error m
      | .ok (labelerPool, poolEffects) =>
        let importFileUri :=
          c.outputDir ++ "/examples/labeling_images/import_file.csv"
        .ok (poolEffects ++
          [Effect.createJob (getLabelingDatasetRegion c.cloudRegion)
            td labelerPool importFileUri])
  else .ok []

/-- The building-centroid block of `main`: when the buildings method is not
`none`, read the AOI file and resolve centroids; otherwise use the empty
list without reading the AOI. Errors carry the trace accumulated so far. -/
def centroidsStage (c : Config) (env : Env) :
    Except (List Effect × String) (List Centroid × List Effect) :=
  if c.buildingsMethod ≠ BuildingsMethod.none then
    let aoi := env.readAois c.aoiPath
    match getBuildingCentroids c env aoi with
    | .error m => .error ([Effect.readAoi c.aoiPath], m)
    | .ok centroids => .ok (centroids, [Effect.readAoi c.aoiPath])
  else .ok ([], [])

/-- The label-ingestion block of `main`: when the labels-file flag is truthy,
read and process the file; otherwise use the empty list. -/
def labelsStage (c : Config) (env : Env) :
    Except (List Effect × String) (List Coord × List Effect) :=
  match c.labelsFile with
  | none => .ok ([], [])
  | some path =>
    if path = "" then .ok ([], [])
    else
      match readLabelsFile c.labelClasses c.numKeepLabeledExamples
          (env.labelRows path c.labelProperty) with
      | .error m => .error ([Effect.readLabels path], m)
      | .ok coords => .ok (coords, [Effect.readLabels path])

/-- Everything `main` has produced when it returns normally. -/
structure MainResult where
  effects : List Effect
  buildingCentroids : List Centroid
  labeledCoordinates : List Coord
  gdalEnv : List (String × String)
  dataflowImage : Option String
  deriving DecidableEq, Repr

/-- The outcome of a run of `main`: a fatal error with the effect trace
accumulated before it was raised, or a normal return. -/
inductive RunOutcome where
  | fatal (effects : List Effect) (msg : String)
  | success (r : MainResult)
  deriving DecidableEq, Repr

/-- The effect trace of an outcome. -/
def runEffects : RunOutcome → List Effect
  | .fatal effects _ => effects
  | .success r => r.effects

/-- The body of `main` after the Dataflow-image and no-work checks: resolve
building centroids and labeled coordinates, parse the GDAL environment,
invoke the generation pipeline, and finally run the labeling-task block. -/
def restRun (c : Config) (env : Env) (image : Option String) : RunOutcome :=
  match centroidsStage c env with
  | .error (eff, m) => .fatal eff m
  | .ok (buildingCentroids, eff1) =>
    match labelsStage c env with
    | .error (eff, m) => .fatal (eff1 ++ eff) m
    | .ok (labeledCoordinates, eff2) =>
      match getGdalEnv c.gdalEnvFlag with
      | .error m => .fatal (eff1 ++ eff2) m
      | .ok gdalEnv =>
        let eff3 := eff1 ++ eff2 ++ [Effect.pipelineCall]
        match labelingTaskStage c env with
        | .error m => .fatal eff3 m
        | .ok eff4 =>
          .success
            { effects := eff3 ++ eff4
              buildingCentroids := buildingCentroids
              labeledCoordinates := labeledCoordinates
              gdalEnv := gdalEnv
              dataflowImage := image }

/-- Embedding of `main` of `generate_examples_main.py`: resolve the Dataflow
container image, reject the configuration when there is no work to do, then
run the rest of the pipeline. -/
def mainRun (c : Config) (env : Env) : RunOutcome :=
  match resolveDataflowImage c.useDataflow c.dataflowContainerImage
      env.pythonVersion with
  | .error m => .fatal [] m
  | .ok image =>
    if optStrTruthy c.labelsFile = false ∧
        c.buildingsMethod = BuildingsMethod.none then
      .fatal [] noWorkMsg
    else restRun c env image

/-- A concrete environment used for witnesses and counterexamples. -/
def envEx : Env :=
  { pythonVersion := "3.9.7"
    timestamp := "20211105_120000"
    readAois := fun _ => [[(0, 0), (0, 1), (1, 0)]]
    readBuildingsFile := fun _ _ => [(10, 20)]
    osmCentroids := fun _ _ => [(30, 40)]
    labelRows := fun _ _ => [⟨1, 2, LabelValue.str "damaged"⟩]
    createSpecialistPool := fun _ _ _ => "pools/123" }

/-- A concrete base configuration used for witnesses and counterexamples. -/
def cfgBase : Config :=
  { cloudProject := some "proj"
    cloudRegion := "us-west1"
    useDataflow := false
    datasetName := some "ds"
    aoiPath := "aoi.geojson"
    outputDir := "out"
    dataflowContainerImage := none
    gdalEnvFlag := []
    buildingsMethod := BuildingsMethod.file
    buildingsFile := some "buildings.csv"
    overpassUrl := "https://lz4.overpass-api.de/api/interpreter"
    labelsFile := some "labels.geojson"
    labelProperty := "Main_Damag"
    labelClasses := ["undamaged", "damaged"]
    numKeepLabeledExamples := some 1000
    createCloudLabelingTask := false
    cloudLabelerPool := none
    cloudLabelerEmails := none }

/-- The base configuration with building discovery turned off. -/
def cfgNone : Config := { cfgBase with buildingsMethod := BuildingsMethod.none }

section Helpers

/-- An `Except` passes `exceptIsOk` exactly when it is an `ok`. -/
lemma exceptIsOk_true_iff {α : Type} (e : Except String α) :
    exceptIsOk e = true ↔ ∃ a, e = .ok a := by
  cases e <;> simp [exceptIsOk]

/-- The only error `_get_gdal_env` can raise is the malformed-entry one. -/
lemma getGdalEnvAux_error (l : List String) :
    ∀ acc m, getGdalEnvAux acc l = .error m → m = gdalEnvMsg := by
  induction l with
  | nil => intro acc m h; simp [getGdalEnvAux] at h
  | cons s rest ih =>
    intro acc m h
    cases hs : strContains s '='
    · simp [getGdalEnvAux, hs] at h
      exact h.symm
    · simp only [getGdalEnvAux, hs] at h
      exact ih _ m (by simpa using h)

/-- The parse succeeds exactly when every entry contains an equals sign. -/
lemma getGdalEnvAux_isOk (l : List String) :
    ∀ acc, exceptIsOk (getGdalEnvAux acc l) =
      l.all (fun s => strContains s '=') := by
  induction l with
  | nil => intro acc; rfl
  | cons s rest ih =>
    intro acc
    cases hs : strContains s '='
    · simp [getGdalEnvAux, hs, exceptIsOk]
    · simpa [getGdalEnvAux, hs] using
        ih (dictInsert acc (strPartitionChar s '=').1 (strPartitionChar s '=').2)

end Helpers

/-- C2: the region-routing function returns one of exactly two values, the
result is determined by whether the region identifier starts with the
"europe-" prefix, "europe-west1" maps to "europe-west4", and "us-east1" and
"asia-east1" map to "us-central1". -/
theorem C2_region_routing (r : String) :
    (getLabelingDatasetRegion r = "europe-west4" ∨
      getLabelingDatasetRegion r = "us-central1") ∧
    (getLabelingDatasetRegion r = "europe-west4" ↔
      strStartsWith r "europe-" = true) ∧
    (getLabelingDatasetRegion r = "us-central1" ↔
      strStartsWith r "europe-" = false) ∧
    getLabelingDatasetRegion "europe-west1" = "europe-west4" ∧
    getLabelingDatasetRegion "us-east1" = "us-central1" ∧
    getLabelingDatasetRegion "asia-east1" = "us-central1" := by
  refine ⟨?_, ?_, ?_, by decide, by decide, by decide⟩ <;>
    cases h : strStartsWith r "europe-" <;>
      simp [getLabelingDatasetRegion, h]

/-- C5: under Dataflow with no configured container image, the default image
is derived from the first three characters of the Python version, with known
defaults only for 3.7, 3.8 and 3.9 and a fatal error for every other
version; without Dataflow the configured image passes through unchanged and
no error is raised for any version, and the same holds when an image is
explicitly configured. -/
theorem C5_dataflow_image (img : Option String) (i v : String) :
    (strTake v 3 = "3.7" → resolveDataflowImage true none v =
      .ok (some "gcr.io/disaster-assessment/dataflow_3.7_image:latest")) ∧
    (strTake v 3 = "3.8" → resolveDataflowImage true none v =
      .ok (some "gcr.io/disaster-assessment/dataflow_3.8_image:latest")) ∧
    (strTake v 3 = "3.9" → resolveDataflowImage true none v =
      .ok (some "gcr.io/disaster-assessment/dataflow_3.9_image:latest")) ∧
    (strTake v 3 ≠ "3.7" → strTake v 3 ≠ "3.8" → strTake v 3 ≠ "3.9" →
      resolveDataflowImage true none v = .error dataflowImageMsg) ∧
    resolveDataflowImage false img v = .ok img ∧
    resolveDataflowImage true (some i) v = .ok (some i) := by
  refine ⟨fun h => ?_, fun h => ?_, fun h => ?_, fun h7 h8 h9 => ?_, ?_, ?_⟩ <;>
    simp_all [resolveDataflowImage]

/-- C5 witness: on Python 3.9.7 with Dataflow and no configured image, the
3.9 default image is derived; without Dataflow no error is raised. -/
theorem C5_dataflow_image_witness :
    resolveDataflowImage true none "3.9.7" =
      .ok (some "gcr.io/disaster-assessment/dataflow_3.9_image:latest") ∧
    resolveDataflowImage false none "3.10.2" = .ok none :=
  ⟨(C5_dataflow_image none "i" "3.9.7").2.2.1 (by decide),
   (C5_dataflow_image none "i" "3.10.2").2.2.2.2.1⟩

/-- C6: parsing the GDAL environment list succeeds exactly when every entry
contains an equals sign, the documented example parses to the documented
mapping, and an entry without an equals sign raises the configuration
error. -/
theorem C6_gdal_env (settings : List String) :
    (exceptIsOk (getGdalEnv settings) =
      settings.all (fun s => strContains s '=')) ∧
    (getGdalEnv settings = .error gdalEnvMsg ↔
      ∃ s ∈ settings, strContains s '=' = false) ∧
    getGdalEnv ["GDAL_CACHEMAX=512", "FOO=bar"] =
      .ok [("GDAL_CACHEMAX", "512"), ("FOO", "bar")] ∧
    getGdalEnv ["BAD"] = .error gdalEnvMsg := by
  have key : exceptIsOk (getGdalEnv settings) =
      settings.all (fun s => strContains s '=') := getGdalEnvAux_isOk settings []
  refine ⟨key, ?_, by rfl, by rfl⟩
  constructor
  · intro h
    have hok : settings.all (fun s => strContains s '=') = false := by
      rw [← key, h]; rfl
    obtain ⟨s, hs, hp⟩ := List.all_eq_false.mp hok
    exact ⟨s, hs, by simpa using hp⟩
  · rintro ⟨s, hs, hval⟩
    have hok : settings.all (fun s => strContains s '=') = false :=
      List.all_eq_false.mpr ⟨s, hs, by simp [hval]⟩
    have hf : exceptIsOk (getGdalEnv settings) = false := by rw [key, hok]
    cases he : getGdalEnv settings with
    | ok a => rw [he] at hf; exact absurd hf (by simp [exceptIsOk])
    | error m =>
      have hm := getGdalEnvAux_error settings [] m he
      rw [hm]

section Inventories

/-- The only error `_read_labels_file`'s row loop can raise is the
unrecognized-label-type one. -/
lemma processRows_error (classNames : List String) (rows : List Row) :
    ∀ m, processRows classNames rows = .error m → m = unrecognizedLabelMsg := by
  induction rows with
  | nil => intro m h; simp [processRows] at h
  | cons r rest ih =>
    intro m h
    cases hl : r.label with
    | str s =>
      cases hidx : classNames.findIdx? (fun c => c == s) with
      | some i =>
        cases hr : processRows classNames rest with
        | ok cs => simp [processRows, hl, hidx, hr] at h
        | error m2 =>
          simp [processRows, hl, hidx, hr] at h
          exact h ▸ ih m2 hr
      | none =>
        simp only [processRows, hl, hidx] at h
        exact ih m h
    | num q =>
      cases hr : processRows classNames rest with
      | ok cs => simp [processRows, hl, hr] at h
      | error m2 =>
        simp [processRows, hl, hr] at h
        exact h ▸ ih m2 hr
    | other =>
      simp [processRows, hl] at h
      exact h.symm

/-- The only error `_read_labels_file` can raise is the
unrecognized-label-type one. -/
lemma readLabelsFile_error (classNames : List String) (numKeep : Option Nat)
    (rows : List Row) (m : String)
    (h : readLabelsFile classNames numKeep rows = .error m) :
    m = unrecognizedLabelMsg := by
  cases hp : processRows classNames rows with
  | ok cs => simp [readLabelsFile, hp] at h
  | error m2 =>
    simp [readLabelsFile, hp] at h
    exact h ▸ processRows_error classNames rows m2 hp

/-- The only error `get_building_centroids` can raise is the
invalid-method one. -/
lemma getBuildingCentroids_error (c : Config) (env : Env)
    (regions : List Polygon) (m : String)
    (h : getBuildingCentroids c env regions = .error m) :
    m = invalidBuildingsMethodMsg := by
  cases hb : c.buildingsMethod <;> simp [getBuildingCentroids, hb] at h
  exact h.symm

/-- A failing centroid stage fails with the invalid-method message and a
trace containing only the AOI read. -/
lemma centroidsStage_error (c : Config) (env : Env) (eff : List Effect)
    (m : String) (h : centroidsStage c env = .error (eff, m)) :
    m = invalidBuildingsMethodMsg ∧ eff = [Effect.readAoi c.aoiPath] := by
  by_cases hb : c.buildingsMethod = BuildingsMethod.none
  · simp [centroidsStage, hb] at h
  · cases hg : getBuildingCentroids c env (env.readAois c.aoiPath) with
    | ok cents => simp [centroidsStage, hb, hg] at h
    | error m2 =>
      simp [centroidsStage, hb, hg] at h
      obtain ⟨h1, h2⟩ := h
      exact ⟨h2 ▸ getBuildingCentroids_error c env _ m2 hg, h1 ▸ rfl⟩


/-- A failing labels stage fails with the unrecognized-label-type message
and a trace containing only the labels read. -/
lemma labelsStage_error (c : Config) (env : Env) (eff : List Effect)
    (m : String) (h : labelsStage c env = .error (eff, m)) :
    m = unrecognizedLabelMsg ∧ ∃ p, eff = [Effect.readLabels p] := by
  cases hf : c.labelsFile with
  | none => simp [labelsStage, hf] at h
  | some path =>
    by_cases hp : path = ""
    · simp [labelsStage, hf, hp] at h
    · cases hr : readLabelsFile c.labelClasses c.numKeepLabeledExamples
          (env.labelRows path c.labelProperty) with
      | ok coords => simp [labelsStage, hf, hp, hr] at h
      | error m2 =>
        simp [labelsStage, hf, hp, hr] at h
        obtain ⟨h1, h2⟩ := h
        exact ⟨h2 ▸ readLabelsFile_error _ _ _ m2 hr, path, h1 ▸ rfl⟩

/-- A successful labels stage records at most the labels read in its trace. -/
lemma labelsStage_ok (c : Config) (env : Env) (coords : List Coord)
    (eff : List Effect) (h : labelsStage c env = .ok (coords, eff)) :
    eff = [] ∨ ∃ p, eff = [Effect.readLabels p] := by
  cases hf : c.labelsFile with
  | none =>
    simp [labelsStage, hf] at h
    exact Or.inl h.2
  | some path =>
    by_cases hp : path = ""
    · simp [labelsStage, hf, hp] at h
      exact Or.inl h.2
    · cases hr : readLabelsFile c.labelClasses c.numKeepLabeledExamples
          (env.labelRows path c.labelProperty) with
      | ok coords2 =>
        simp [labelsStage, hf, hp, hr] at h
        exact Or.inr ⟨path, h.2.symm⟩
      | error m2 => simp [labelsStage, hf, hp, hr] at h

/-- The only error the labeler-pool block can raise is the missing-email
one. -/
lemma provisionPool_error (td : String) (poolFlag : Option String)
    (emailsFlag : Option (List String)) (env : Env) (m : String)
    (h : provisionPool td poolFlag emailsFlag env = .error m) :
    m = labelerEmailMsg := by
  cases poolFlag with
  | some p => simp [provisionPool] at h
  | none =>
    cases emailsFlag with
    | none => simpa [provisionPool] using h.symm
    | some emails =>
      cases emails with
      | nil => simpa [provisionPool] using h.symm
      | cons e rest => simp [provisionPool] at h

/-- A successful labeler-pool block records at most one pool creation in
its trace. -/
lemma provisionPool_ok (td : String) (poolFlag : Option String)
    (emailsFlag : Option (List String)) (env : Env) (pool : String)
    (eff : List Effect)
    (h : provisionPool td poolFlag emailsFlag env = .ok (pool, eff)) :
    eff = [] ∨ ∃ d mg mem, eff = [Effect.createPool d mg mem] := by
  cases poolFlag with
  | some p =>
    simp [provisionPool] at h
    exact Or.inl h.2
  | none =>
    cases emailsFlag with
    | none => simp [provisionPool] at h
    | some emails =>
      cases emails with
      | nil => simp [provisionPool] at h
      | cons e rest =>
        simp [provisionPool] at h
        exact Or.inr ⟨_, _, _, h.2.symm⟩

/-- The only errors the labeling-task block can raise are the missing
dataset name and the missing labeler email ones. -/
lemma labelingTaskStage_error (c : Config) (env : Env) (m : String)
    (h : labelingTaskStage c env = .error m) :
    m = datasetNameMsg ∨ m = labelerEmailMsg := by
  by_cases ht : c.createCloudLabelingTask = true
  · by_cases hd : optStrTruthy c.datasetName = false
    · simp [labelingTaskStage, ht, hd] at h
      exact Or.inl h.symm
    · cases hp : provisionPool (timestampedDataset (c.datasetName.getD "") env.timestamp)
          c.cloudLabelerPool c.cloudLabelerEmails env with
      | ok pr => simp [labelingTaskStage, ht, hd, hp] at h
      | error m2 =>
        simp [labelingTaskStage, ht, hd, hp] at h
        exact Or.inr (h ▸ provisionPool_error _ _ _ _ m2 hp)
  · simp [labelingTaskStage, ht] at h

/-- A successful labeling-task block records only service-call effects:
no AOI read, no labels read, no pipeline call. -/
lemma labelingTaskStage_ok (c : Config) (env : Env) (eff : List Effect)
    (h : labelingTaskStage c env = .ok eff) :
    ∀ e ∈ eff, (∃ d mg mem, e = Effect.createPool d mg mem) ∨
      ∃ reg ds pool uri, e = Effect.createJob reg ds pool uri := by
  by_cases ht : c.createCloudLabelingTask = true
  · by_cases hd : optStrTruthy c.datasetName = false
    · simp [labelingTaskStage, ht, hd] at h
    · cases hp : provisionPool (timestampedDataset (c.datasetName.getD "") env.timestamp)
          c.cloudLabelerPool c.cloudLabelerEmails env with
      | ok pr =>
        simp [labelingTaskStage, ht, hd, hp] at h
        intro e he
        rw [← h] at he
        rcases List.mem_append.mp he with hin | hin
        · rcases provisionPool_ok _ _ _ _ _ _ hp with h0 | ⟨d, mg, mem, hsh⟩
          · rw [h0] at hin; simp at hin
          · rw [hsh] at hin
            simp at hin
            exact Or.inl ⟨d, mg, mem, hin⟩
        · simp at hin
          exact Or.inr ⟨_, _, _, _, hin⟩
      | error m2 => simp [labelingTaskStage, ht, hd, hp] at h
  · simp [labelingTaskStage, ht] at h
    intro e he
    rw [h] at he
    simp at he

end Inventories

end Skai

namespace Skai

/-- C1: in label ingestion, a string label becomes the float of its index in
the ordered class schema (case-sensitive exact match), a string absent from
the schema drops that row while the rest proceed, a numeric label passes
through as a float, and any other label type makes the whole read fail; for
the schema ["undamaged", "damaged"], label "damaged" yields 1.0, label
"destroyed" yields no output row, and label 2 yields 2.0. -/
theorem C1_label_resolution :
    (∀ (schema : List String) (r : Row) (rest : List Row) (s : String)
        (i : Nat) (cs : List Coord),
      r.label = LabelValue.str s →
      schema.findIdx? (fun c => c == s) = some i →
      processRows schema rest = .ok cs →
      processRows schema (r :: rest) = .ok ((r.x, r.y, (i : ℚ)) :: cs)) ∧
    (∀ (schema : List String) (r : Row) (rest : List Row) (s : String),
      r.label = LabelValue.str s →
      schema.findIdx? (fun c => c == s) = none →
      processRows schema (r :: rest) = processRows schema rest) ∧
    (∀ (schema : List String) (r : Row) (rest : List Row) (q : ℚ)
        (cs : List Coord),
      r.label = LabelValue.num q →
      processRows schema rest = .ok cs →
      processRows schema (r :: rest) = .ok ((r.x, r.y, q) :: cs)) ∧
    (∀ (schema : List String) (r : Row) (rest : List Row),
      r.label = LabelValue.other →
      processRows schema (r :: rest) = .error unrecognizedLabelMsg) ∧
    (∀ (schema : List String) (numKeep : Option Nat) (rows : List Row)
        (m : String),
      processRows schema rows = .error m →
      readLabelsFile schema numKeep rows = .error m) ∧
    processRows ["undamaged", "damaged"]
      [⟨1, 2, LabelValue.str "damaged"⟩, ⟨3, 4, LabelValue.str "destroyed"⟩,
       ⟨5, 6, LabelValue.num 2⟩] = .ok [(1, 2, 1), (5, 6, 2)] ∧
    processRows ["undamaged", "damaged"]
      [⟨1, 2, LabelValue.str "damaged"⟩, ⟨7, 8, LabelValue.other⟩] =
      .error unrecognizedLabelMsg := by
  refine ⟨?_, ?_, ?_, ?_, ?_, by decide, by decide⟩
  · intro schema r rest s i cs hl hidx hr
    simp [processRows, hl, hidx, hr]
  · intro schema r rest s hl hidx
    simp [processRows, hl, hidx]
  · intro schema r rest q cs hl hr
    simp [processRows, hl, hr]
  · intro schema r rest hl
    simp [processRows, hl]
  · intro schema numKeep rows m hm
    simp [readLabelsFile, hm]

/-- C1 witness: the three documented example labels, resolved concretely. -/
theorem C1_label_resolution_witness :
    processRows ["undamaged", "damaged"] [⟨1, 2, LabelValue.str "damaged"⟩] =
      .ok [(1, 2, 1)] ∧
    processRows ["undamaged", "damaged"] [⟨3, 4, LabelValue.str "destroyed"⟩] =
      processRows ["undamaged", "damaged"] [] ∧
    processRows ["undamaged", "damaged"] [⟨5, 6, LabelValue.num 2⟩] =
      .ok [(5, 6, 2)] ∧
    readLabelsFile ["undamaged", "damaged"] none [⟨7, 8, LabelValue.other⟩] =
      .error unrecognizedLabelMsg :=
  ⟨(C1_label_resolution.1 ["undamaged", "damaged"]
      ⟨1, 2, LabelValue.str "damaged"⟩ [] "damaged" 1 [] rfl (by decide)
      rfl).trans (by decide),
   C1_label_resolution.2.1 ["undamaged", "damaged"]
      ⟨3, 4, LabelValue.str "destroyed"⟩ [] "destroyed" rfl (by decide),
   (C1_label_resolution.2.2.1 ["undamaged", "damaged"]
      ⟨5, 6, LabelValue.num 2⟩ [] 2 [] rfl rfl).trans (by decide),
   C1_label_resolution.2.2.2.2.1 ["undamaged", "damaged"] none
      [⟨7, 8, LabelValue.other⟩] unrecognizedLabelMsg
      (C1_label_resolution.2.2.2.1 ["undamaged", "damaged"]
        ⟨7, 8, LabelValue.other⟩ [] rfl)⟩

/-- C7: a nonzero keep-count truncates the ingestion output to the first
`n` valid coordinates in file order; a keep-count of zero or an unset
keep-count keeps everything. -/
theorem C7_keep_count (schema : List String) (rows : List Row) (n : Nat)
    (cs : List Coord) (h : processRows schema rows = .ok cs) (hn : n ≠ 0) :
    readLabelsFile schema (some n) rows = .ok (cs.take n) ∧
    readLabelsFile schema (some 0) rows = .ok cs ∧
    readLabelsFile schema none rows = .ok cs := by
  refine ⟨?_, ?_, ?_⟩ <;>
    simp [readLabelsFile, h, applyKeepCap, optNatTruthy, hn]

/-- C7 witness: keep-count 2 over 5 valid rows yields exactly the first two
rows in file order. -/
theorem C7_keep_count_witness :
    readLabelsFile ["undamaged", "damaged"] (some 2)
      [⟨1, 1, LabelValue.num 1⟩, ⟨2, 2, LabelValue.num 2⟩,
       ⟨3, 3, LabelValue.num 3⟩, ⟨4, 4, LabelValue.num 4⟩,
       ⟨5, 5, LabelValue.num 5⟩] = .ok [(1, 1, 1), (2, 2, 2)] :=
  ((C7_keep_count ["undamaged", "damaged"]
      [⟨1, 1, LabelValue.num 1⟩, ⟨2, 2, LabelValue.num 2⟩,
       ⟨3, 3, LabelValue.num 3⟩, ⟨4, 4, LabelValue.num 4⟩,
       ⟨5, 5, LabelValue.num 5⟩] 2
      [(1, 1, 1), (2, 2, 2), (3, 3, 3), (4, 4, 4), (5, 5, 5)]
      (by decide) (by decide)).1).trans (by decide)

/-- C3 counterexample: with building-discovery mode `none`,
`get_building_centroids` does not return an empty centroid sequence — it
falls through every branch and raises the invalid-method `ValueError`. -/
theorem C3_buildings_none_counterexample :
    getBuildingCentroids cfgNone envEx [] ≠ Except.ok [] := by decide

/-- C3 amended: with building-discovery mode `none`,
`get_building_centroids` raises the invalid-method `ValueError`; the
orchestrator produces the empty centroid sequence in mode `none` by not
calling `get_building_centroids` at all. -/
theorem C3_buildings_none_amended (c : Config) (env : Env)
    (regions : List Polygon) (h : c.buildingsMethod = BuildingsMethod.none) :
    getBuildingCentroids c env regions = .error invalidBuildingsMethodMsg ∧
    centroidsStage c env = .ok ([], []) := by
  constructor
  · simp [getBuildingCentroids, h]
  · simp [centroidsStage, h]

/-- C3 witness: the amended behaviour at a concrete configuration. -/
theorem C3_buildings_none_witness :
    getBuildingCentroids cfgNone envEx [] = .error invalidBuildingsMethodMsg ∧
    centroidsStage cfgNone envEx = .ok ([], []) :=
  C3_buildings_none_amended cfgNone envEx [] (by decide)

end Skai

namespace Skai

/-- The only error the Dataflow-image check can raise is the
missing-image one. -/
lemma resolveDataflowImage_error (u : Bool) (i : Option String) (v : String)
    (m : String) (h : resolveDataflowImage u i v = .error m) :
    m = dataflowImageMsg := by
  simp only [resolveDataflowImage] at h
  split at h
  · split at h
    · simp at h
    · split at h
      · simp at h
      · split at h
        · simp at h
        · injection h with h2
          exact h2.symm
  · simp at h

/-- Any fatal outcome of the post-validation pipeline carries one of the
stage error messages, and the late (labeling-task) errors occur only after
the pipeline call is already in the trace. -/
lemma restRun_fatal_msg (c : Config) (env : Env) (img : Option String)
    (eff : List Effect) (m : String) (h : restRun c env img = .fatal eff m) :
    m = invalidBuildingsMethodMsg ∨ m = unrecognizedLabelMsg ∨ m = gdalEnvMsg ∨
      ((m = datasetNameMsg ∨ m = labelerEmailMsg) ∧
        Effect.pipelineCall ∈ eff) := by
  cases hcs : centroidsStage c env with
  | error em =>
    obtain ⟨eff0, m0⟩ := em
    simp [restRun, hcs] at h
    exact Or.inl (h.2 ▸ (centroidsStage_error c env eff0 m0 hcs).1)
  | ok res1 =>
    obtain ⟨cents, eff1⟩ := res1
    cases hls : labelsStage c env with
    | error em =>
      obtain ⟨eff0, m0⟩ := em
      simp [restRun, hcs, hls] at h
      exact Or.inr (Or.inl (h.2 ▸ (labelsStage_error c env eff0 m0 hls).1))
    | ok res2 =>
      obtain ⟨coords, eff2⟩ := res2
      cases hg : getGdalEnv c.gdalEnvFlag with
      | error m0 =>
        simp [restRun, hcs, hls, hg] at h
        exact Or.inr (Or.inr (Or.inl (h.2 ▸ getGdalEnvAux_error _ _ m0 hg)))
      | ok g =>
        cases hlt : labelingTaskStage c env with
        | error m0 =>
          simp [restRun, hcs, hls, hg, hlt] at h
          refine Or.inr (Or.inr (Or.inr
            ⟨h.2 ▸ labelingTaskStage_error c env m0 hlt, ?_⟩))
          rw [← h.1]
          simp
        | ok eff4 => simp [restRun, hcs, hls, hg, hlt] at h

/-- With building discovery turned off, the post-validation pipeline never
reads the AOI file and returns zero building centroids. -/
lemma restRun_none (c : Config) (env : Env) (img : Option String)
    (hb : c.buildingsMethod = BuildingsMethod.none) :
    (∀ p, Effect.readAoi p ∉ runEffects (restRun c env img)) ∧
    ∀ r, restRun c env img = .success r → r.buildingCentroids = [] := by
  have hcs : centroidsStage c env = .ok ([], []) := by simp [centroidsStage, hb]
  cases hls : labelsStage c env with
  | error em =>
    obtain ⟨eff0, m0⟩ := em
    obtain ⟨hm, p, hsh⟩ := labelsStage_error c env eff0 m0 hls
    subst hsh
    constructor
    · intro p2
      simp [restRun, hcs, hls, runEffects]
    · intro r hr
      simp [restRun, hcs, hls] at hr
  | ok res =>
    obtain ⟨coords, eff2⟩ := res
    have heff2 : ∀ p2, Effect.readAoi p2 ∉ eff2 := by
      intro p2
      rcases labelsStage_ok c env coords eff2 hls with h0 | ⟨p, hp⟩
      · simp [h0]
      · simp [hp]
    cases hg : getGdalEnv c.gdalEnvFlag with
    | error m0 =>
      constructor
      · intro p2
        simp only [restRun, hcs, hls, hg, runEffects]
        simp [heff2 p2]
      · intro r hr
        simp [restRun, hcs, hls, hg] at hr
    | ok g =>
      cases hlt : labelingTaskStage c env with
      | error m0 =>
        constructor
        · intro p2
          simp only [restRun, hcs, hls, hg, hlt, runEffects]
          simp [heff2 p2]
        · intro r hr
          simp [restRun, hcs, hls, hg, hlt] at hr
      | ok eff4 =>
        have heff4 : ∀ p2, Effect.readAoi p2 ∉ eff4 := by
          intro p2 hmem
          rcases labelingTaskStage_ok c env eff4 hlt _ hmem with
            ⟨d, mg, mem, heq⟩ | ⟨reg, ds, pool, uri, heq⟩ <;> simp at heq
        constructor
        · intro p2
          simp only [restRun, hcs, hls, hg, hlt, runEffects]
          simp [heff2 p2, heff4 p2]
        · intro r hr
          simp [restRun, hcs, hls, hg, hlt] at hr
          rw [← hr]

end Skai

namespace Skai

/-- String append acts on the underlying character lists. -/
lemma strAppend_data (a b : String) : (a ++ b).data = a.data ++ b.data := by
  cases a; cases b; rfl

/-- The base configuration with a labeling task requested for a new pool. -/
def cfgTask : Config :=
  { cfgNone with
    createCloudLabelingTask := true
    cloudLabelerEmails := some ["a@x.com", "b@x.com"] }

/-- The base configuration with a labeling task requested but no dataset
name configured. -/
def cfgTaskNoName : Config :=
  { cfgNone with createCloudLabelingTask := true, datasetName := none }

/-- C4: provided the Dataflow-image check passes, the run fails with the
no-work error exactly when building discovery is `none` and no labels file
is supplied; with mode `none` and a labels file the run never reads the AOI
file and any successful run carries zero building centroids. -/
theorem C4_no_work_validation (c : Config) (env : Env)
    (h : exceptIsOk (resolveDataflowImage c.useDataflow
      c.dataflowContainerImage env.pythonVersion) = true) :
    (mainRun c env = .fatal [] noWorkMsg ↔
      c.buildingsMethod = BuildingsMethod.none ∧
        optStrTruthy c.labelsFile = false) ∧
    (c.buildingsMethod = BuildingsMethod.none →
      optStrTruthy c.labelsFile = true →
      (∀ p, Effect.readAoi p ∉ runEffects (mainRun c env)) ∧
      ∀ r, mainRun c env = .success r → r.buildingCentroids = []) := by
  obtain ⟨img, himg⟩ := (exceptIsOk_true_iff _).mp h
  constructor
  · constructor
    · intro hf
      by_cases hcond : optStrTruthy c.labelsFile = false ∧
          c.buildingsMethod = BuildingsMethod.none
      · exact ⟨hcond.2, hcond.1⟩
      · rw [show mainRun c env = restRun c env img from by
          simp [mainRun, himg, hcond]] at hf
        rcases restRun_fatal_msg c env img [] noWorkMsg hf with
          h1 | h1 | h1 | ⟨h1, h2⟩
        · exact absurd h1 (by decide)
        · exact absurd h1 (by decide)
        · exact absurd h1 (by decide)
        · simp at h2
    · intro hcond
      simp [mainRun, himg, hcond.1, hcond.2]
  · intro hb hl
    rw [show mainRun c env = restRun c env img from by
      simp [mainRun, himg, hl]]
    exact restRun_none c env img hb

/-- C4 witness: with mode `none` and no labels file the no-work error is
raised; with mode `none` and a labels file the AOI file is not read. -/
theorem C4_no_work_validation_witness :
    mainRun { cfgNone with labelsFile := none } envEx =
      .fatal [] noWorkMsg ∧
    Effect.readAoi "aoi.geojson" ∉ runEffects (mainRun cfgNone envEx) :=
  ⟨(C4_no_work_validation { cfgNone with labelsFile := none } envEx
      (by decide)).1.mpr (by decide),
   ((C4_no_work_validation cfgNone envEx (by decide)).2 (by decide)
      (by decide)).1 "aoi.geojson"⟩

/-- C8: an existing pool identifier is used as-is with no pool creation;
with no pool identifier an empty or unset email list is a fatal error,
and otherwise the first email becomes the manager slice, the full list the
members, and the pool display name is the dataset name bound to the
labeling job (the timestamped dataset name) plus the literal `_pool`
suffix. -/
theorem C8_pool_provisioning (td p e : String) (rest : List String)
    (emailsFlag : Option (List String)) (env : Env) :
    provisionPool td (some p) emailsFlag env = .ok (p, []) ∧
    provisionPool td none none env = .error labelerEmailMsg ∧
    provisionPool td none (some []) env = .error labelerEmailMsg ∧
    provisionPool td none (some (e :: rest)) env =
      .ok (env.createSpecialistPool (td ++ "_pool") [e] (e :: rest),
        [Effect.createPool (td ++ "_pool") [e] (e :: rest)]) ∧
    labelingTaskStage cfgTask envEx =
      .ok [Effect.createPool
            (timestampedDataset "ds" "20211105_120000" ++ "_pool")
            ["a@x.com"] ["a@x.com", "b@x.com"],
          Effect.createJob "us-central1"
            (timestampedDataset "ds" "20211105_120000") "pools/123"
            "out/examples/labeling_images/import_file.csv"] :=
  ⟨rfl, rfl, rfl, rfl, by decide⟩

/-- C9: every labeling job created by the labeling-task block is bound to
the configured dataset name suffixed with an underscore and the generation
timestamp, and two timestamped names built from the same configured name
collide exactly when the timestamps coincide. -/
theorem C9_timestamped_dataset (name t1 t2 : String) (c : Config) (env : Env)
    (effs : List Effect) (reg ds pool uri : String)
    (hok : labelingTaskStage c env = .ok effs)
    (hmem : Effect.createJob reg ds pool uri ∈ effs) :
    ds = timestampedDataset (c.datasetName.getD "") env.timestamp ∧
    (timestampedDataset name t1 = timestampedDataset name t2 ↔ t1 = t2) := by
  constructor
  · by_cases ht : c.createCloudLabelingTask = true
    · by_cases hd : optStrTruthy c.datasetName = false
      · simp [labelingTaskStage, ht, hd] at hok
      · cases hp : provisionPool (timestampedDataset (c.datasetName.getD "")
            env.timestamp) c.cloudLabelerPool c.cloudLabelerEmails env with
        | error m2 => simp [labelingTaskStage, ht, hd, hp] at hok
        | ok pr =>
          obtain ⟨pool2, poolEff⟩ := pr
          simp [labelingTaskStage, ht, hd, hp] at hok
          rw [← hok] at hmem
          rcases List.mem_append.mp hmem with hin | hin
          · rcases provisionPool_ok _ _ _ _ _ _ hp with h0 | ⟨d, mg, mem, hsh⟩
            · rw [h0] at hin
              simp at hin
            · rw [hsh] at hin
              simp at hin
          · simp at hin
            exact hin.2.1
    · simp [labelingTaskStage, ht] at hok
      rw [hok] at hmem
      simp at hmem
  · constructor
    · intro heq
      have h2 := congrArg String.data heq
      simp only [timestampedDataset, strAppend_data] at h2
      have h3 := List.append_cancel_left h2
      cases t1; cases t2
      exact congrArg String.mk h3
    · intro heq
      rw [heq]

/-- C9 witness: the job created for the concrete task configuration is
bound to the timestamped dataset name, and names with distinct timestamps
differ. -/
theorem C9_timestamped_dataset_witness :
    "ds_20211105_120000" =
      timestampedDataset (cfgTask.datasetName.getD "") envEx.timestamp ∧
    (timestampedDataset "ds" "20211105_120000" =
        timestampedDataset "ds" "20211105_120001" ↔
      ("20211105_120000" : String) = "20211105_120001") :=
  C9_timestamped_dataset "ds" "20211105_120000" "20211105_120001" cfgTask
    envEx
    [Effect.createPool "ds_20211105_120000_pool" ["a@x.com"]
      ["a@x.com", "b@x.com"],
     Effect.createJob "us-central1" "ds_20211105_120000" "pools/123"
      "out/examples/labeling_images/import_file.csv"]
    "us-central1" "ds_20211105_120000" "pools/123"
    "out/examples/labeling_images/import_file.csv"
    (by decide) (by decide)

/-- C10: whenever a run fails with the missing-dataset-name error, the
pipeline call is already in its effect trace, and the concrete task
configuration without a dataset name exhibits exactly that failure. -/
theorem C10_dataset_name_validation :
    (∀ (c : Config) (env : Env) (eff : List Effect),
      mainRun c env = .fatal eff datasetNameMsg →
        Effect.pipelineCall ∈ eff) ∧
    mainRun cfgTaskNoName envEx =
      .fatal [Effect.readLabels "labels.geojson", Effect.pipelineCall]
        datasetNameMsg := by
  constructor
  · intro c env eff h
    cases hres : resolveDataflowImage c.useDataflow c.dataflowContainerImage
        env.pythonVersion with
    | error m =>
      simp [mainRun, hres] at h
      exact absurd (h.2 ▸ resolveDataflowImage_error _ _ _ m hres)
        (by decide)
    | ok img =>
      by_cases hcond : optStrTruthy c.labelsFile = false ∧
          c.buildingsMethod = BuildingsMethod.none
      · rw [show mainRun c env = .fatal [] noWorkMsg from by
          simp [mainRun, hres, hcond]] at h
        simp at h
        exact absurd h.2 (by decide)
      · rw [show mainRun c env = restRun c env img from by
          simp [mainRun, hres, hcond]] at h
        rcases restRun_fatal_msg c env img eff datasetNameMsg h with
          h1 | h1 | h1 | ⟨h1, h2⟩
        · exact absurd h1 (by decide)
        · exact absurd h1 (by decide)
        · exact absurd h1 (by decide)
        · exact h2
  · decide

/-- C10 witness: the pipeline call is in the trace of the concrete failing
run. -/
theorem C10_dataset_name_validation_witness :
    Effect.pipelineCall ∈
      [Effect.readLabels "labels.geojson", Effect.pipelineCall] :=
  C10_dataset_name_validation.1 cfgTaskNoName envEx _
    C10_dataset_name_validation.2

end Skai
